import Mathlib

/-!
Shallow embedding of the PDF acquisition and processing pipeline.

Source files modelled here:
- `pdf-downloader.py` : `download_pdf(url, filename, download_dir, verify_ssl=True)`,
  a retry loop of 3 attempts with a per-attempt choice of certificate verification,
  a content-type warning, and distinct handlers for SSL errors and other request errors.
- `pdf_downloader.py` : the simpler `download_pdf(url, filename, download_dir)` variant
  that always disables certificate verification.
- `pdf-processor-directory.py` : `MongoDBHandler` (store_initial_metadata, _handle_error,
  store_processing_results) and `PDFProcessor` (process_pdf, _extract_keywords,
  process_directory).

Network requests, the filesystem, `hashlib.sha256` and `PyPDF2` are external
collaborators; they are passed in as explicit parameters (an outcome function per
attempt for the downloader, a file map plus hash/extract functions for the processor).
Timestamps are abstract naturals.  Machine behaviour that the claims depend on
(`requests.get`'s `verify` flag per attempt, retry counts, sleeps, the warning
condition, Mongo upsert/`$setOnInsert`/`$set`/`$push` semantics on list-backed
collections, counters of `process_directory`) is modelled faithfully, statement by
statement.
-/

/-! ## Fetcher model (`pdf-downloader.py`, `download_pdf`) -/

/-- Outcome of one `requests.get` + `raise_for_status` call: a 2xx response with a
declared content type, an `SSLError`, or any other `RequestException`
(connection reset, timeout, non-2xx status via `raise_for_status`). -/
inductive ReqOutcome where
  | success (contentType : String)
  | sslError
  | reqError
deriving DecidableEq

/-- `max_retries = 3` in `download_pdf`. -/
def max_retries : Nat := 3

/-- `retry_delay = 2  # seconds` in `download_pdf`. -/
def retry_delay : Nat := 2

/-- Observable trace of one `download_pdf` call: every performed request as
(attempt index, certificate verification enabled?), every backoff sleep duration,
the number of content-type warnings printed, whether the destination file was
written, the returned value (`some true` = `True`, `some false` = `False`,
`none` = the implicit `None` when control falls off the loop), and whether the
final `else: return False` arm of the SSL handler was ever executed. -/
structure Trace where
  requests : List (Nat × Bool)
  sleeps : List Nat
  warnings : Nat
  fileWritten : Bool
  result : Option Bool
  sslElseTaken : Bool
deriving DecidableEq

/-- Python `str.lower()` as a character list (`.lower()` is always followed by a
character-level test in the source, so the model works on characters directly). -/
def lowerChars (s : String) : List Char := s.data.map Char.toLower

/-- Byte-level `needle in haystack` membership on character lists (Python `in` on
lowercased strings), used for the `'pdf' not in content_type` test. -/
def charsHaveSub (needle : List Char) : List Char → Bool
  | [] => needle.isEmpty
  | c :: rest => needle.isPrefixOf (c :: rest) || charsHaveSub needle rest

/-- The body of `for attempt in range(max_retries)` in `download_pdf`
(`pdf-downloader.py`), one list element per remaining loop index.
Falling off the loop returns `None`. -/
def download_go (env : Nat → Bool → ReqOutcome) (verify_ssl : Bool) :
    List Nat → Trace → Trace
  | [], acc => { acc with result := none }
  | attempt :: rest, acc =>
    -- `if verify_ssl or attempt < max_retries - 1:` chooses the verified request;
    -- the `verify=False` request is the else branch.
    let verifyOn := verify_ssl || decide (attempt < max_retries - 1)
    let acc1 := { acc with requests := acc.requests ++ [(attempt, verifyOn)] }
    match env attempt verifyOn with
    | ReqOutcome.success ct =>
      -- `if 'pdf' not in content_type and attempt == max_retries - 1: print warning`
      let warn := !(charsHaveSub "pdf".data (lowerChars ct)) &&
        decide (attempt = max_retries - 1)
      { acc1 with
          warnings := acc1.warnings + (if warn then 1 else 0),
          fileWritten := true,
          result := some true }
    | ReqOutcome.sslError =>
      if attempt < max_retries - 1 then
        download_go env verify_ssl rest { acc1 with sleeps := acc1.sleeps ++ [retry_delay] }
      else if attempt = max_retries - 1 then
        -- `continue` on the last loop index: the loop simply ends.
        download_go env verify_ssl rest acc1
      else
        { acc1 with sslElseTaken := true, result := some false }
    | ReqOutcome.reqError =>
      if attempt < max_retries - 1 then
        download_go env verify_ssl rest { acc1 with sleeps := acc1.sleeps ++ [retry_delay] }
      else
        { acc1 with result := some false }

/-- `download_pdf(url, filename, download_dir, verify_ssl=True)` from
`pdf-downloader.py`.  `env attempt verifyOn` is the outcome of the request made on
that loop index with that verification setting. -/
def download_pdf (env : Nat → Bool → ReqOutcome) (verify_ssl : Bool) : Trace :=
  download_go env verify_ssl (List.range max_retries)
    { requests := [], sleeps := [], warnings := 0, fileWritten := false,
      result := none, sslElseTaken := false }

/-! ## Simple fetcher variant (`pdf_downloader.py`, `download_pdf`) -/

/-- Outcome of one request in the simple variant: success or any
`RequestException` (SSL errors included, they are a subclass). -/
inductive SimpleOutcome where
  | success
  | reqError
deriving DecidableEq

/-- Trace of the simple `download_pdf`: requests as (attempt, verification
enabled?) — the source always passes `verify=False` — plus sleeps and the
returned boolean. -/
structure SimpleTrace where
  requests : List (Nat × Bool)
  sleeps : List Nat
  result : Bool
deriving DecidableEq

/-- Loop body of the simple `download_pdf` (`for attempt in range(3)`); after the
loop the function returns `False`. -/
def simple_go (env : Nat → SimpleOutcome) : List Nat → SimpleTrace → SimpleTrace
  | [], acc => { acc with result := false }
  | attempt :: rest, acc =>
    let acc1 := { acc with requests := acc.requests ++ [(attempt, false)] }
    match env attempt with
    | SimpleOutcome.success => { acc1 with result := true }
    | SimpleOutcome.reqError =>
      simple_go env rest { acc1 with sleeps := acc1.sleeps ++ [2] }

/-- `download_pdf(url, filename, download_dir)` from `pdf_downloader.py`:
`requests.get(..., verify=False)` on every attempt, sleep 2 after every failed
attempt, `return False` after the loop. -/
def download_pdf_simple (env : Nat → SimpleOutcome) : SimpleTrace :=
  simple_go env (List.range 3) { requests := [], sleeps := [], result := false }

/-! Scenario environments used by concrete evaluations. -/

/-- An origin whose every request fails certificate validation. -/
def envAllSSL : Nat → Bool → ReqOutcome := fun _ _ => ReqOutcome.sslError

/-- An origin that always answers 200 with content type `text/html`. -/
def envHtml : Nat → Bool → ReqOutcome := fun _ _ => ReqOutcome.success "text/html"

/-- An origin that fails with a transport error on attempts 0 and 1 and answers
200 `text/html` on attempt 2. -/
def envHtmlLast : Nat → Bool → ReqOutcome := fun attempt _ =>
  if attempt < 2 then ReqOutcome.reqError else ReqOutcome.success "text/html"

/-! ## KeywordRanker (`PDFProcessor._extract_keywords`) -/

/-- A `{"word": ..., "frequency": ...}` entry of the returned keyword list. -/
structure Keyword where
  word : String
  frequency : Nat
deriving DecidableEq

/-- Python `str.split()`: maximal runs of non-whitespace characters, empty
tokens never produced.  `cur` accumulates the current run in reverse. -/
def splitWsGo (cur : List Char) : List Char → List (List Char)
  | [] => if cur.isEmpty then [] else [cur.reverse]
  | c :: rest =>
    if c.isWhitespace then
      if cur.isEmpty then splitWsGo [] rest
      else cur.reverse :: splitWsGo [] rest
    else splitWsGo (c :: cur) rest

/-- `text.lower().split()` : lowercase, then split on whitespace runs. -/
def lowerSplit (text : String) : List String :=
  (splitWsGo [] (lowerChars text)).map (fun cs => String.mk cs)

/-- One `word_freq[word] = word_freq.get(word, 0) + 1` step on an
insertion-ordered association list (the model of a Python dict: first
insertion fixes the position, later increments update in place). -/
def bump (w : String) : List (String × Nat) → List (String × Nat)
  | [] => [(w, 1)]
  | (x, n) :: rest => if x == w then (x, n + 1) :: rest else (x, n) :: bump w rest

/-- Descending-by-frequency comparison used by
`sorted(word_freq.items(), key=lambda x: x[1], reverse=True)`.
Python's `sorted` is stable, which `List.insertionSort` with this
(total, transitive) relation reproduces: an element is inserted after
every earlier element of greater-or-equal frequency. -/
def freqGe (a b : String × Nat) : Prop := b.2 ≤ a.2

instance : DecidableRel freqGe := fun a b => inferInstanceAs (Decidable (b.2 ≤ a.2))

instance : IsTotal (String × Nat) freqGe := ⟨fun a b => Nat.le_total b.2 a.2⟩

instance : IsTrans (String × Nat) freqGe := ⟨fun _ _ _ h1 h2 => le_trans h2 h1⟩

/-- `PDFProcessor._extract_keywords(text, max_keywords=10)` from
`pdf-processor-directory.py`: lowercase + split, count words longer than 3
characters into an insertion-ordered frequency dict, stable-sort by frequency
descending, truncate, and shape as `{"word": w, "frequency": f}` entries. -/
def extract_keywords (text : String) (max_keywords : Nat) : List Keyword :=
  let words := lowerSplit text
  let word_freq := words.foldl
    (fun acc w => if 3 < w.length then bump w acc else acc) []
  let keywords := (List.insertionSort freqGe word_freq).take max_keywords
  keywords.map (fun p => { word := p.1, frequency := p.2 })

/-- Modelled from the spec's words for the refinement claim C5 (KeywordRanker
`rank`): "lowercase-normalize, split on whitespace, discard tokens of length
≤ 3, count frequency, sort by frequency descending with ties broken by
first-occurrence order (stable sort), truncate to `maxKeywords`". -/
def rank_spec (text : String) (maxKeywords : Nat) : List Keyword :=
  let tokens := lowerSplit text
  let kept := tokens.filter (fun w => decide (3 < w.length))
  let counted := kept.foldl (fun acc w => bump w acc) []
  ((List.insertionSort freqGe counted).take maxKeywords).map
    (fun p => { word := p.1, frequency := p.2 })

/-! ## StatusStore / ErrorLog model (`MongoDBHandler` over list-backed collections) -/

/-- A MongoDB ObjectId: identity of an auto-generated `_id`. -/
structure ObjId where
  idx : Nat
deriving DecidableEq

/-- One element of the `$push`-ed `processing_history` array. -/
structure HistoryEntry where
  timestamp : Nat
  version : String
  summary_length : Nat
  keyword_count : Nat
deriving DecidableEq

/-- A document of the `errors` collection, as built by
`MongoDBHandler._handle_error`. -/
structure ErrorRecord where
  error_type : String
  filename : String
  error_message : String
  timestamp : Nat
  recovered : Bool
deriving DecidableEq

/-- The nested `processing_status` sub-document of the initial metadata. -/
structure ProcStatusInfo where
  stage : String
  attempts : Nat
  last_attempt : Nat
deriving DecidableEq

/-- The nested `metadata` sub-document of the processing results. -/
structure DocMetadata where
  page_count : Nat
  text_length : Nat
  processed_time : Nat
deriving DecidableEq

/-- A document of the `documents` collection.  `docId` models the Mongo `_id`.
Result fields are `Option`s: absent until `store_processing_results` `$set`s
them. -/
structure Document where
  docId : ObjId
  filename : String
  file_hash : String
  file_size : Nat
  file_path : String
  upload_date : Nat
  status : String
  processing_status : ProcStatusInfo
  last_updated : Nat
  summary : Option String
  keywords : Option (List Keyword)
  metadata : Option DocMetadata
  processing_version : Option String
  processing_history : List HistoryEntry
deriving DecidableEq

/-- A document of the `processing_status` collection. -/
structure StatusEntry where
  filename : String
  status : String
  timestamp : Nat
deriving DecidableEq

/-- The three collections plus the generator for fresh `_id`s. -/
structure DBState where
  documents : List Document
  processing_status : List StatusEntry
  errors : List ErrorRecord
  nextId : Nat
deriving DecidableEq

/-- The store with all collections empty. -/
def emptyDB : DBState :=
  { documents := [], processing_status := [], errors := [], nextId := 0 }

/-- The local filesystem: a map from path to file bytes. -/
structure FileSystem where
  files : List (String × List Nat)

/-- `open(path, 'rb').read()`: `none` models the raised `IOError`. -/
def FileSystem.readBytes (fs : FileSystem) (path : String) : Option (List Nat) :=
  (fs.files.find? (fun f => f.1 == path)).map Prod.snd

/-- Mongo `update_one`: modify the first (with a unique index, the only)
matching document, leaving the rest of the collection in place. -/
def updateFirst {α : Type} (p : α → Bool) (upd : α → α) : List α → List α
  | [] => []
  | x :: xs => if p x then upd x :: xs else x :: updateFirst p upd xs

/-- `MongoDBHandler._handle_error`: append-only insert into `errors` with
`recovered: False`; never fails the caller. -/
def handle_error (st : DBState) (etype fname msg : String) (now : Nat) : DBState :=
  { st with errors := st.errors ++
      [{ error_type := etype, filename := fname, error_message := msg,
         timestamp := now, recovered := false }] }

/-- The `processing_status.update_one({"filename": f}, {"$set": {...}}, upsert=True)`
status touch inside `store_initial_metadata`. -/
def touch_status (st : DBState) (fname : String) (now : Nat) : DBState :=
  if (st.processing_status.find? (fun e => e.filename == fname)).isSome then
    let touched := updateFirst (fun e => e.filename == fname)
      (fun e => { e with status := "pending", timestamp := now }) st.processing_status
    { st with processing_status := touched }
  else
    { st with processing_status := st.processing_status ++
        [{ filename := fname, status := "pending", timestamp := now }] }

/-- The metadata document built by `store_initial_metadata` before its upsert. -/
def initial_metadata_doc (docId : ObjId) (fname fhash : String) (fsize : Nat)
    (fpath : String) (now : Nat) : Document :=
  { docId := docId, filename := fname, file_hash := fhash, file_size := fsize,
    file_path := fpath, upload_date := now, status := "pending",
    processing_status := { stage := "initial", attempts := 0, last_attempt := now },
    last_updated := now, summary := none, keywords := none, metadata := none,
    processing_version := none, processing_history := [] }

/-- `MongoDBHandler.store_initial_metadata(filename, file_path)`:
read the file (hash and size), upsert the metadata with `$setOnInsert`
(insert-if-absent: an existing document is left untouched), touch
`processing_status`, and return `result.upserted_id or find_one(...)["_id"]`.
A failure (file unreadable) is logged via `_handle_error("metadata_storage", ...)`
and re-raised (`Except.error`). -/
def store_initial_metadata (hashFn : List Nat → String) (fs : FileSystem)
    (st : DBState) (fname fpath : String) (now : Nat) :
    Except String ObjId × DBState :=
  match fs.readBytes fpath with
  | none =>
    (Except.error "file open failed",
     handle_error st "metadata_storage" fname "file open failed" now)
  | some content =>
    let fhash := hashFn content
    let fsize := content.length
    match st.documents.find? (fun d => d.filename == fname) with
    | some d =>
      -- `$setOnInsert` matched an existing document: body untouched,
      -- `upserted_id` is None, so the id comes from `find_one` (run after the
      -- status touch, which does not modify `documents`).
      (Except.ok d.docId, touch_status st fname now)
    | none =>
      let newDoc := initial_metadata_doc { idx := st.nextId } fname fhash fsize fpath now
      let st1 := { st with documents := st.documents ++ [newDoc],
                           nextId := st.nextId + 1 }
      (Except.ok newDoc.docId, touch_status st1 fname now)

/-- The `processed_data` dict built by `process_pdf`. -/
structure ProcessedData where
  filename : String
  summary : String
  keywords : List Keyword
  metadata : DocMetadata
deriving DecidableEq

/-- The per-document effect of `store_processing_results`'s `update_one`:
`$set` of the enriched results (merge plus `processing_version`,
`last_updated`, `status: completed`) and `$push` of one
`processing_history` entry. -/
def results_update (results : ProcessedData) (now : Nat) (d : Document) : Document :=
  { d with
      filename := results.filename,
      summary := some results.summary,
      keywords := some results.keywords,
      metadata := some results.metadata,
      processing_version := some "1.0",
      last_updated := now,
      status := "completed",
      processing_history := d.processing_history ++
        [{ timestamp := now, version := "1.0",
           summary_length := results.summary.length,
           keyword_count := results.keywords.length }] }

/-- `MongoDBHandler.store_processing_results(doc_id, results)`. -/
def store_processing_results (st : DBState) (docId : ObjId)
    (results : ProcessedData) (now : Nat) : DBState :=
  let docs := updateFirst (fun d => d.docId == docId) (results_update results now) st.documents
  { st with documents := docs }

/-! ## Pipeline Coordinator (`PDFProcessor`) -/

/-- External collaborators of `PDFProcessor`: the filesystem, `hashlib.sha256`
hex digest, `PyPDF2` page extraction (`none` models a raised exception), the
input directory and the clock. -/
structure PyEnv where
  fs : FileSystem
  hashFn : List Nat → String
  pdfRead : List Nat → Option (List String)
  input_dir : String
  now : Nat

/-- `text += page.extract_text() + "\n"` over the pages. -/
def pages_text (pages : List String) : String :=
  pages.foldl (fun t p => t ++ p ++ "\n") ""

/-- `PDFProcessor.process_pdf(filename)`: store initial metadata, extract the
text, build `processed_data`, store the results.  Any exception is caught;
`_handle_error("processing", ...)` runs only when `doc_id` was already set. -/
def process_pdf (env : PyEnv) (st : DBState) (fname : String) :
    Option ProcessedData × DBState :=
  let fpath := env.input_dir ++ "/" ++ fname
  match store_initial_metadata env.hashFn env.fs st fname fpath env.now with
  | (Except.error _, st1) =>
    -- metadata storage failed: `doc_id` is None, so no "processing" record.
    (none, st1)
  | (Except.ok docId, st1) =>
    match env.fs.readBytes fpath with
    | none => (none, handle_error st1 "processing" fname "file open failed" env.now)
    | some content =>
      match env.pdfRead content with
      | none => (none, handle_error st1 "processing" fname "extraction failed" env.now)
      | some pages =>
        let text := pages_text pages
        let processed : ProcessedData :=
          { filename := fname,
            summary := text.take 500,
            keywords := extract_keywords text 10,
            metadata := { page_count := pages.length, text_length := text.length,
                          processed_time := env.now } }
        (some processed, store_processing_results st1 docId processed env.now)

/-- The `{"successful": ..., "failed": ...}` tally returned by
`process_directory`. -/
structure Tally where
  successful : Nat
  failed : Nat
deriving DecidableEq

/-- `filename.lower().endswith('.pdf')`, the candidate filter of
`process_directory`. -/
def is_pdf_name (f : String) : Bool := ".pdf".data.isSuffixOf (lowerChars f)

/-- The `for filename in pdf_files` loop of `process_directory` with its
success/failure counters. -/
def process_files (env : PyEnv) : List String → Nat → Nat → DBState →
    Nat × Nat × DBState
  | [], s, f, st => (s, f, st)
  | fname :: rest, s, f, st =>
    match process_pdf env st fname with
    | (some _, st1) => process_files env rest (s + 1) f st1
    | (none, st1) => process_files env rest s (f + 1) st1

/-- `PDFProcessor.process_directory()`: raise `ValueError` when the input
directory does not exist; return `None` (after only a logged warning) when it
holds no `.pdf` entries; otherwise process every candidate and return the
tally.  The error carries the store state to make "nothing was written"
expressible. -/
def process_directory (env : PyEnv) (dirOnDisk : Bool) (listing : List String)
    (st : DBState) : Except (String × DBState) (Option Tally × DBState) :=
  if dirOnDisk = false then
    Except.error ("ValueError: Input directory does not exist", st)
  else
    let pdf_files := listing.filter is_pdf_name
    if pdf_files.isEmpty then
      Except.ok (none, st)
    else
      let r := process_files env pdf_files 0 0 st
      Except.ok (some { successful := r.1, failed := r.2.1 }, r.2.2)

/-! ## Scenario fixtures for concrete evaluations -/

/-- A filesystem holding one downloaded file of one byte. -/
def fsOne : FileSystem := { files := [("pdf_downloads/doc1.pdf", [7])] }

/-- A processor environment over `fsOne` whose `PyPDF2` reader raises on every
file (an invalid PDF container). -/
def envBadPdf : PyEnv :=
  { fs := fsOne, hashFn := fun _ => "h", pdfRead := fun _ => none,
    input_dir := "pdf_downloads", now := 5 }

/-- The store state after `process_directory` handles the single invalid PDF of
`envBadPdf`: one pending document, one status entry, one `processing` error. -/
def stAfterBad : DBState :=
  { documents := [initial_metadata_doc { idx := 0 } "doc1.pdf" "h" 1 "pdf_downloads/doc1.pdf" 5],
    processing_status := [{ filename := "doc1.pdf", status := "pending", timestamp := 5 }],
    errors := [{ error_type := "processing", filename := "doc1.pdf", error_message := "extraction failed", timestamp := 5, recovered := false }],
    nextId := 1 }

/-- A document as created by the initial-metadata upsert. -/
def d0 : Document := initial_metadata_doc { idx := 0 } "a.pdf" "h" 1 "d/a.pdf" 0

/-- A store holding exactly `d0`. -/
def stOneDoc : DBState :=
  { documents := [d0], processing_status := [], errors := [], nextId := 1 }

/-- A concrete `processed_data` value. -/
def res0 : ProcessedData :=
  { filename := "a.pdf", summary := "sum",
    keywords := [{ word := "word1", frequency := 2 }],
    metadata := { page_count := 1, text_length := 4, processed_time := 7 } }

/-- First initial-metadata upsert of `doc1.pdf` at time 3. -/
def upsert1 : Except String ObjId × DBState :=
  store_initial_metadata (fun _ => "h") fsOne emptyDB "doc1.pdf" "pdf_downloads/doc1.pdf" 3

/-- Second initial-metadata upsert of the same filename at time 9. -/
def upsert2 : Except String ObjId × DBState :=
  store_initial_metadata (fun _ => "h") fsOne upsert1.2 "doc1.pdf" "pdf_downloads/doc1.pdf" 9

/-! ## Helper lemmas -/

theorem updateFirst_length {α : Type} (p : α → Bool) (u : α → α) (l : List α) :
    (updateFirst p u l).length = l.length := by
  induction l with
  | nil => rfl
  | cons x xs ih =>
    rw [updateFirst]
    by_cases h : p x <;> simp [h, ih]

theorem find?_updateFirst {α : Type} (p : α → Bool) (u : α → α)
    (hpu : ∀ x, p (u x) = p x) (l : List α) :
    List.find? p (updateFirst p u l) = (List.find? p l).map u := by
  induction l with
  | nil => rfl
  | cons x xs ih =>
    rw [updateFirst]
    by_cases h : p x
    · simp [List.find?_cons, h, hpu]
    · simp [List.find?_cons, h, ih]

theorem touch_status_documents (st : DBState) (fname : String) (now : Nat) :
    (touch_status st fname now).documents = st.documents := by
  rw [touch_status]; split <;> rfl

theorem touch_status_errors (st : DBState) (fname : String) (now : Nat) :
    (touch_status st fname now).errors = st.errors := by
  rw [touch_status]; split <;> rfl

theorem touch_status_find (st : DBState) (fname : String) (now : Nat) :
    ((touch_status st fname now).processing_status.find?
      (fun e => e.filename == fname)).map (fun e => e.timestamp) = some now := by
  rw [touch_status]
  by_cases h : (st.processing_status.find? (fun e => e.filename == fname)).isSome
  · rw [if_pos h]
    obtain ⟨e, he⟩ := Option.isSome_iff_exists.mp h
    have hpu : ∀ x : StatusEntry,
        ((fun e => e.filename == fname) ({ x with status := "pending", timestamp := now } : StatusEntry)) =
          ((fun e => e.filename == fname) x) := fun x => rfl
    rw [find?_updateFirst _ _ hpu, he]
    rfl
  · rw [if_neg h]
    have hnone : st.processing_status.find? (fun e => e.filename == fname) = none :=
      Option.not_isSome_iff_eq_none.mp h
    simp [List.find?_append, hnone]

theorem store_initial_metadata_insert_branch (hashFn : List Nat → String)
    (fs : FileSystem) (st : DBState) (fname fpath : String) (bytes : List Nat)
    (now : Nat)
    (hread : fs.readBytes fpath = some bytes)
    (hnew : st.documents.find? (fun d => d.filename == fname) = none) :
    store_initial_metadata hashFn fs st fname fpath now =
      (Except.ok { idx := st.nextId },
        touch_status { st with documents := st.documents ++ [initial_metadata_doc { idx := st.nextId } fname (hashFn bytes) bytes.length fpath now], nextId := st.nextId + 1 } fname now) := by
  rw [store_initial_metadata, hread]
  simp only [hnew]
  rfl

theorem store_initial_metadata_match_branch (hashFn : List Nat → String)
    (fs : FileSystem) (st : DBState) (fname fpath : String) (bytes : List Nat)
    (now : Nat) (d : Document)
    (hread : fs.readBytes fpath = some bytes)
    (hfound : st.documents.find? (fun x => x.filename == fname) = some d) :
    store_initial_metadata hashFn fs st fname fpath now =
      (Except.ok d.docId, touch_status st fname now) := by
  rw [store_initial_metadata, hread]
  simp only [hfound]

theorem mem_bump (P : String → Prop) (w : String) (acc : List (String × Nat))
    (hw : P w) (hacc : ∀ q ∈ acc, P q.1) : ∀ q ∈ bump w acc, P q.1 := by
  induction acc with
  | nil =>
    intro q hq
    rw [bump, List.mem_singleton] at hq
    subst hq
    exact hw
  | cons x rest ih =>
    obtain ⟨a, n⟩ := x
    intro q hq
    rw [bump] at hq
    by_cases h : a == w
    · rw [if_pos h] at hq
      rcases List.mem_cons.mp hq with h1 | h1
      · subst h1; exact hacc (a, n) (List.mem_cons_self _ _)
      · exact hacc q (List.mem_cons_of_mem _ h1)
    · rw [if_neg h] at hq
      rcases List.mem_cons.mp hq with h1 | h1
      · subst h1; exact hacc (a, n) (List.mem_cons_self _ _)
      · exact ih (fun q hq => hacc q (List.mem_cons_of_mem _ hq)) q h1

theorem foldl_bump_long (ws : List String) (acc : List (String × Nat))
    (hacc : ∀ q ∈ acc, 3 < q.1.length) :
    ∀ q ∈ ws.foldl (fun acc w => if 3 < w.length then bump w acc else acc) acc,
      3 < q.1.length := by
  induction ws generalizing acc with
  | nil => exact hacc
  | cons w rest ih =>
    intro q hq
    rw [List.foldl_cons] at hq
    by_cases h : 3 < w.length
    · rw [if_pos h] at hq
      exact ih (bump w acc) (mem_bump (fun s => 3 < s.length) w acc h hacc) q hq
    · rw [if_neg h] at hq
      exact ih acc hacc q hq

theorem foldl_bump_filter (ws : List String) (acc : List (String × Nat)) :
    ws.foldl (fun acc w => if 3 < w.length then bump w acc else acc) acc =
      (ws.filter (fun w => decide (3 < w.length))).foldl
        (fun acc w => bump w acc) acc := by
  induction ws generalizing acc with
  | nil => rfl
  | cons w rest ih =>
    by_cases h : 3 < w.length
    · simp [List.foldl_cons, List.filter_cons, h, ih]
    · simp [List.foldl_cons, List.filter_cons, h, ih]

theorem download_go_ssl_else_never (env : Nat → Bool → ReqOutcome) (vs : Bool) :
    ∀ atts : List Nat, (∀ a ∈ atts, a < 3) → ∀ acc : Trace,
      acc.sslElseTaken = false → (download_go env vs atts acc).sslElseTaken = false := by
  intro atts
  induction atts with
  | nil => intro _ acc hacc; simpa [download_go] using hacc
  | cons a rest ih =>
    intro hmem acc hacc
    have ha : a < 3 := hmem a (List.mem_cons_self a rest)
    have hrest : ∀ b ∈ rest, b < 3 := fun b hb => hmem b (List.mem_cons_of_mem a hb)
    rw [download_go]
    cases env a (vs || decide (a < max_retries - 1)) with
    | success ct => simpa using hacc
    | sslError =>
      by_cases h2 : a < max_retries - 1
      · simp only [h2, if_true]
        exact ih hrest _ (by simpa using hacc)
      · by_cases h3 : a = max_retries - 1
        · simp only [h2, if_false, h3, if_true]
          exact ih hrest _ (by simpa using hacc)
        · exfalso
          simp [max_retries] at h2 h3
          omega
    | reqError =>
      by_cases h2 : a < max_retries - 1
      · simp only [h2, if_true]
        exact ih hrest _ (by simpa using hacc)
      · simpa [h2] using hacc

/-! ## Claim theorems -/

/-- Claim C1: the claim says the final attempt of a fetch whose earlier attempts
failed certificate validation runs with verification disabled and only then.
Evaluating `download_pdf` at verify_ssl=True with every attempt raising
`SSLError` shows the code keeps verification enabled on all three attempts
(the `verify=False` request depends on the caller's `verify_ssl` flag, not on
prior failures) and the call falls off the loop returning `None`; the simple
variant disables verification on every attempt by default. -/
theorem download_pdf_ssl_fallback_never_triggers :
    (download_pdf envAllSSL true).requests = [(0, true), (1, true), (2, true)] ∧
    (download_pdf envAllSSL true).result = none ∧
    (download_pdf_simple (fun _ => SimpleOutcome.reqError)).requests =
      [(0, false), (1, false), (2, false)] := by
  refine ⟨by rfl, by rfl, by rfl⟩

/-- Claim C2: when every attempt raises a transient transport error, both
`download_pdf` variants retry with the fixed 2-time-unit backoff, perform
exactly 3 attempts, and return the failure value (`False`) instead of raising;
no file is written. -/
theorem download_pdf_transport_retry (env : Nat → Bool → ReqOutcome) (vs : Bool)
    (envS : Nat → SimpleOutcome)
    (h : ∀ a v, env a v = ReqOutcome.reqError)
    (hS : ∀ a, envS a = SimpleOutcome.reqError) :
    (download_pdf env vs).result = some false ∧
    (download_pdf env vs).requests.length = 3 ∧
    (download_pdf env vs).sleeps = [retry_delay, retry_delay] ∧
    (download_pdf env vs).fileWritten = false ∧
    (download_pdf_simple envS).result = false ∧
    (download_pdf_simple envS).requests.length = 3 ∧
    (download_pdf_simple envS).sleeps = [2, 2, 2] := by
  have hr : List.range max_retries = [0, 1, 2] := rfl
  have hr3 : List.range 3 = [0, 1, 2] := rfl
  simp [download_pdf, download_pdf_simple, hr, hr3, download_go, simple_go, h, hS,
    max_retries, retry_delay]

/-- Witness for claim C2 at the always-failing origin. -/
theorem download_pdf_transport_retry_witness :
    (download_pdf (fun _ _ => ReqOutcome.reqError) true).result = some false ∧
    (download_pdf (fun _ _ => ReqOutcome.reqError) true).requests.length = 3 ∧
    (download_pdf (fun _ _ => ReqOutcome.reqError) true).sleeps = [retry_delay, retry_delay] ∧
    (download_pdf (fun _ _ => ReqOutcome.reqError) true).fileWritten = false ∧
    (download_pdf_simple (fun _ => SimpleOutcome.reqError)).result = false ∧
    (download_pdf_simple (fun _ => SimpleOutcome.reqError)).requests.length = 3 ∧
    (download_pdf_simple (fun _ => SimpleOutcome.reqError)).sleeps = [2, 2, 2] :=
  download_pdf_transport_retry _ true _ (fun _ _ => rfl) (fun _ => rfl)

/-- Claim C3: upserting initial metadata twice for the same filename leaves
exactly one Document with that filename, the second call does not change the
`documents` collection at all, it returns the identity of the pre-existing
record (the one created by the first call), and it still records a
status-tracking timestamp touch at the second call's time. -/
theorem store_initial_metadata_idempotent (hashFn : List Nat → String)
    (fs : FileSystem) (st : DBState) (fname fpath : String) (bytes : List Nat)
    (t1 t2 : Nat) (r1 r2 : Except String ObjId × DBState)
    (hread : fs.readBytes fpath = some bytes)
    (hnew : st.documents.find? (fun d => d.filename == fname) = none)
    (hr1 : store_initial_metadata hashFn fs st fname fpath t1 = r1)
    (hr2 : store_initial_metadata hashFn fs r1.2 fname fpath t2 = r2) :
    (r2.2.documents.filter (fun d => d.filename == fname)).length = 1 ∧
    r2.2.documents = r1.2.documents ∧
    r2.1 = r1.1 ∧
    r1.1 = Except.ok { idx := st.nextId } ∧
    (r2.2.processing_status.find? (fun e => e.filename == fname)).map
      (fun e => e.timestamp) = some t2 := by
  subst hr1
  rw [store_initial_metadata_insert_branch hashFn fs st fname fpath bytes t1 hread hnew] at hr2 ⊢
  have hfind2 : (touch_status { st with documents := st.documents ++ [initial_metadata_doc { idx := st.nextId } fname (hashFn bytes) bytes.length fpath t1], nextId := st.nextId + 1 } fname t1).documents.find? (fun x => x.filename == fname) =
      some (initial_metadata_doc { idx := st.nextId } fname (hashFn bytes) bytes.length fpath t1) := by
    rw [touch_status_documents]
    simp [List.find?_append, hnew, initial_metadata_doc]
  rw [store_initial_metadata_match_branch hashFn fs _ fname fpath bytes t2 _ hread hfind2] at hr2
  subst hr2
  have hfilter : st.documents.filter (fun d => d.filename == fname) = [] :=
    List.filter_eq_nil_iff.mpr (List.find?_eq_none.mp hnew)
  refine ⟨?_, ?_, rfl, rfl, ?_⟩
  · simp [touch_status_documents, List.filter_append, hfilter, initial_metadata_doc]
  · simp [touch_status_documents]
  · exact touch_status_find _ fname t2

/-- Witness for claim C3: the double upsert of `doc1.pdf` over `fsOne`. -/
theorem store_initial_metadata_idempotent_witness :
    (upsert2.2.documents.filter (fun d => d.filename == "doc1.pdf")).length = 1 ∧
    upsert2.2.documents = upsert1.2.documents ∧
    upsert2.1 = upsert1.1 ∧
    upsert1.1 = Except.ok { idx := 0 } ∧
    (upsert2.2.processing_status.find? (fun e => e.filename == "doc1.pdf")).map
      (fun e => e.timestamp) = some 9 :=
  store_initial_metadata_idempotent (fun _ => "h") fsOne emptyDB "doc1.pdf"
    "pdf_downloads/doc1.pdf" [7] 3 9 upsert1 upsert2 rfl rfl rfl rfl

/-- Claim C4 counterexample: a one-document batch whose PDF cannot be decoded
ends with the Document still in status `pending` (never `error`) and a single
ErrorRecord of kind `processing`, which is not among the claimed per-stage
kinds; the batch does complete with `{successful: 0, failed: 1}`. -/
theorem process_pdf_stage_failure_counterexample :
    process_directory envBadPdf true ["doc1.pdf"] emptyDB =
      Except.ok (some { successful := 0, failed := 1 }, stAfterBad) ∧
    stAfterBad.documents.map (fun d => d.status) = ["pending"] ∧
    stAfterBad.errors.map (fun e => e.error_type) = ["processing"] ∧
    "pending" ≠ "error" ∧
    "processing" ∉ (["metadata_storage", "download", "extraction", "results_storage"] : List String) := by
  refine ⟨by rfl, by rfl, by rfl, by decide, by decide⟩

/-- Claim C4 (amended): when a document's processing fails at a stage (here:
extraction), the Coordinator writes one ErrorRecord — tagged `processing`, not
the stage's own kind — halts further stages for that document, leaves the
Document's status at `pending` (it is never moved to `error`), and the batch
still completes with the failure tallied: `{successful: 0, failed: 1}`. -/
theorem process_directory_stage_failure (env : PyEnv) (fname : String)
    (bytes : List Nat) (r : Option Tally × DBState)
    (hpdf : is_pdf_name fname = true)
    (hread : env.fs.readBytes (env.input_dir ++ "/" ++ fname) = some bytes)
    (hbad : env.pdfRead bytes = none)
    (hr : process_directory env true [fname] emptyDB = Except.ok r) :
    r.1 = some { successful := 0, failed := 1 } ∧
    r.2.errors.map (fun e => e.error_type) = ["processing"] ∧
    (∀ d ∈ r.2.documents, d.status = "pending") := by
  have hmeta := store_initial_metadata_insert_branch env.hashFn env.fs emptyDB fname
    (env.input_dir ++ "/" ++ fname) bytes env.now hread (by rfl)
  rw [process_directory] at hr
  simp only [List.filter_cons, List.filter_nil, hpdf, if_true] at hr
  rw [process_files] at hr
  rw [process_pdf, hmeta] at hr
  simp only [hread, hbad] at hr
  rw [process_files] at hr
  simp only [if_false] at hr
  cases hr
  refine ⟨rfl, ?_, ?_⟩
  · simp [handle_error, touch_status_errors, emptyDB]
  · intro d hd
    simp only [handle_error] at hd
    rw [touch_status_documents] at hd
    simp only [emptyDB, List.nil_append, List.mem_singleton] at hd
    subst hd
    rfl

/-- Witness for claim C4 (amended) at the invalid-PDF environment. -/
theorem process_directory_stage_failure_witness :
    some ({ successful := 0, failed := 1 } : Tally) = some { successful := 0, failed := 1 } ∧
    stAfterBad.errors.map (fun e => e.error_type) = ["processing"] ∧
    (∀ d ∈ stAfterBad.documents, d.status = "pending") :=
  process_directory_stage_failure envBadPdf "doc1.pdf" [7]
    (some { successful := 0, failed := 1 }, stAfterBad)
    (by rfl) (by rfl) (by rfl) (by rfl)

/-- Claim C5: `_extract_keywords` equals the spec's pipeline (lowercase, split
on whitespace, discard tokens of length ≤ 3, count, stable sort by frequency
descending, truncate), and consequently — being a pure function it is
deterministic — its output length is at most `max_keywords`, every returned
word is longer than 3 characters, and frequencies are non-increasing. -/
theorem extract_keywords_meets_spec (text : String) (k : Nat) :
    extract_keywords text k = rank_spec text k ∧
    (extract_keywords text k).length ≤ k ∧
    (∀ kw ∈ extract_keywords text k, 3 < kw.word.length) ∧
    (extract_keywords text k).Pairwise (fun a b => b.frequency ≤ a.frequency) := by
  refine ⟨?_, ?_, ?_, ?_⟩
  · rw [extract_keywords, rank_spec, foldl_bump_filter]
  · rw [extract_keywords]
    simp [List.length_take]
  · intro kw hkw
    rw [extract_keywords] at hkw
    simp only [List.mem_map] at hkw
    obtain ⟨p, hp, hpe⟩ := hkw
    have hp1 : p ∈ List.insertionSort freqGe
        ((lowerSplit text).foldl (fun acc w => if 3 < w.length then bump w acc else acc) []) :=
      List.mem_of_mem_take hp
    have hp2 := (List.perm_insertionSort freqGe _).mem_iff.mp hp1
    have := foldl_bump_long (lowerSplit text) [] (by simp) p hp2
    rw [← hpe]
    exact this
  · rw [extract_keywords]
    rw [List.pairwise_map]
    exact List.Pairwise.sublist (List.take_sublist k _)
      (List.sorted_insertionSort freqGe _)

/-- Claim C6: `store_processing_results` on an existing Document merges the
results into it (summary, keywords, metadata populated), sets its status to
`completed`, and appends exactly one history entry carrying `summary_length`
and `keyword_count` computed from the results, after the untouched previous
entries; no document is added or removed. -/
theorem store_processing_results_completes (st : DBState) (docId : ObjId)
    (results : ProcessedData) (now : Nat) (d : Document)
    (hfind : st.documents.find? (fun x => x.docId == docId) = some d) :
    ∃ d', (store_processing_results st docId results now).documents.find?
        (fun x => x.docId == docId) = some d' ∧
      d'.status = "completed" ∧
      d'.summary = some results.summary ∧
      d'.keywords = some results.keywords ∧
      d'.metadata = some results.metadata ∧
      d'.processing_history = d.processing_history ++
        [{ timestamp := now, version := "1.0", summary_length := results.summary.length, keyword_count := results.keywords.length }] ∧
      (store_processing_results st docId results now).documents.length =
        st.documents.length := by
  refine ⟨results_update results now d, ?_, rfl, rfl, rfl, rfl, rfl, ?_⟩
  · show List.find? (fun x => x.docId == docId)
        (updateFirst (fun x => x.docId == docId) (results_update results now)
          st.documents) = some (results_update results now d)
    rw [find?_updateFirst (fun x => x.docId == docId) (results_update results now)
      (fun x => rfl) st.documents, hfind]
    rfl
  · show (updateFirst (fun x => x.docId == docId) (results_update results now)
        st.documents).length = st.documents.length
    exact updateFirst_length _ _ _

/-- Witness for claim C6 on the one-document store `stOneDoc`. -/
theorem store_processing_results_completes_witness :
    ∃ d', (store_processing_results stOneDoc { idx := 0 } res0 7).documents.find?
        (fun x => x.docId == ({ idx := 0 } : ObjId)) = some d' ∧
      d'.status = "completed" ∧
      d'.summary = some res0.summary ∧
      d'.keywords = some res0.keywords ∧
      d'.metadata = some res0.metadata ∧
      d'.processing_history = d0.processing_history ++
        [{ timestamp := 7, version := "1.0", summary_length := res0.summary.length, keyword_count := res0.keywords.length }] ∧
      (store_processing_results stOneDoc { idx := 0 } res0 7).documents.length =
        stOneDoc.documents.length :=
  store_processing_results_completes stOneDoc { idx := 0 } res0 7 d0 rfl

/-- Claim C7 counterexample: `process_directory` on an existing directory with
zero PDF files returns `None` (after only a logged warning), not the tally
`{successful: 0, failed: 0}` the claim states. -/
theorem process_directory_zero_pdfs_counterexample :
    process_directory envBadPdf true ["readme.txt"] emptyDB = Except.ok (none, emptyDB) ∧
    (Except.ok (none, emptyDB) : Except (String × DBState) (Option Tally × DBState)) ≠
      Except.ok (some { successful := 0, failed := 0 }, emptyDB) := by
  refine ⟨by rfl, by simp⟩

/-- Claim C7 (amended): for every existing directory whose listing holds no
`.pdf` entry, `process_directory` does not crash: it returns normally with no
tally (`None`) and the store unchanged. -/
theorem process_directory_no_pdfs (env : PyEnv) (listing : List String) (st : DBState)
    (h : ∀ f ∈ listing, is_pdf_name f = false) :
    process_directory env true listing st = Except.ok (none, st) := by
  have hf : listing.filter is_pdf_name = [] := by
    rw [List.filter_eq_nil_iff]
    intro a ha
    simp [h a ha]
  rw [process_directory]
  simp [hf]

/-- Witness for claim C7 (amended) on a listing with no PDF entries. -/
theorem process_directory_no_pdfs_witness :
    process_directory envBadPdf true ["readme.txt", "notes.md"] emptyDB =
      Except.ok (none, emptyDB) :=
  process_directory_no_pdfs envBadPdf ["readme.txt", "notes.md"] emptyDB (by decide)

/-- Claim C8 counterexample: a transfer that succeeds on the first attempt with
the non-PDF content type `text/html` emits no warning at all (the source's
warning condition also requires `attempt == max_retries - 1`), though it does
succeed. -/
theorem content_type_warning_skipped_on_early_success :
    (download_pdf envHtml true).result = some true ∧
    (download_pdf envHtml true).warnings = 0 := by
  refine ⟨by rfl, by rfl⟩

/-- Claim C8 (amended): a successful transfer always succeeds regardless of the
declared content type, but the non-PDF warning is emitted only when the success
happens on the final (third) attempt; successes on earlier attempts emit no
warning. -/
theorem download_pdf_warning_only_on_final_attempt
    (env : Nat → Bool → ReqOutcome) (vs : Bool) (a : Nat) (ct : String)
    (ha : a < 3)
    (hbefore : ∀ i v, i < a → env i v = ReqOutcome.reqError)
    (hsucc : ∀ v, env a v = ReqOutcome.success ct) :
    (download_pdf env vs).result = some true ∧
    (download_pdf env vs).requests.length = a + 1 ∧
    (a < 2 → (download_pdf env vs).warnings = 0) ∧
    (a = 2 → charsHaveSub "pdf".data (lowerChars ct) = false →
      (download_pdf env vs).warnings = 1) := by
  have hr : List.range max_retries = [0, 1, 2] := rfl
  interval_cases a
  · simp [download_pdf, hr, download_go, hsucc, max_retries]
  · have h0 : ∀ v, env 0 v = ReqOutcome.reqError := fun v => hbefore 0 v (by omega)
    simp [download_pdf, hr, download_go, h0, hsucc, max_retries, retry_delay]
  · have h0 : ∀ v, env 0 v = ReqOutcome.reqError := fun v => hbefore 0 v (by omega)
    have h1 : ∀ v, env 1 v = ReqOutcome.reqError := fun v => hbefore 1 v (by omega)
    refine ⟨?_, ?_, ?_, ?_⟩
    · simp [download_pdf, hr, download_go, h0, h1, hsucc, max_retries, retry_delay]
    · simp [download_pdf, hr, download_go, h0, h1, hsucc, max_retries, retry_delay]
    · omega
    · intro _ hsub
      simp [download_pdf, hr, download_go, h0, h1, hsucc, max_retries, retry_delay]
      simpa using hsub

/-- Witness for claim C8 (amended): success on the final attempt with content
type `text/html` yields exactly one warning. -/
theorem download_pdf_warning_only_on_final_attempt_witness :
    (download_pdf envHtmlLast true).result = some true ∧
    (download_pdf envHtmlLast true).requests.length = 2 + 1 ∧
    (2 < 2 → (download_pdf envHtmlLast true).warnings = 0) ∧
    (2 = 2 → charsHaveSub "pdf".data (lowerChars "text/html") = false →
      (download_pdf envHtmlLast true).warnings = 1) :=
  download_pdf_warning_only_on_final_attempt envHtmlLast true 2 "text/html"
    (by decide)
    (fun i v hi => by simp [envHtmlLast, hi])
    (fun v => by simp [envHtmlLast])

/-- Claim C9: with verify_ssl=True and every attempt raising `SSLError`, the
last-attempt SSL handler `continue`s out of the exhausted loop, so
`download_pdf` returns `None` — neither the success value `True` nor the
failure value `False` — and the `else: return False` arm of the SSL handler is
unreachable for every input. -/
theorem download_pdf_none_after_final_ssl :
    (download_pdf envAllSSL true).result = none ∧
    (∀ b : Bool, (download_pdf envAllSSL true).result ≠ some b) ∧
    (∀ (env : Nat → Bool → ReqOutcome) (vs : Bool),
      (download_pdf env vs).sslElseTaken = false) := by
  refine ⟨by rfl, ?_, ?_⟩
  · intro b h
    have hn : (download_pdf envAllSSL true).result = none := by rfl
    rw [hn] at h
    exact Option.noConfusion h
  · intro env vs
    exact download_go_ssl_else_never env vs (List.range max_retries) (by decide) _ rfl

/-- Claim C10: for every listing and store, `process_directory` on a path that
does not exist on disk raises `ValueError` before processing any document; the
error carries the store state unchanged. -/
theorem process_directory_missing_dir (env : PyEnv) (listing : List String) (st : DBState) :
    process_directory env false listing st =
      Except.error ("ValueError: Input directory does not exist", st) := by
  rfl
